import Mathlib

/-!
Shallow embedding of the answerforu backend: the carry marketplace module
(src/modules/carry.js) and the airports module (src/modules/airports.js).

The relational store is modelled as lists of rows with explicit autoincrement
counters; each HTTP handler becomes a pure function from the database state and
the (already JSON-decoded and Number-coerced) request data to a response and a
new database state.  SQL datetime values are modelled as an abstract Nat clock
passed to each operation.  Host-supplied helpers that are not part of this
repository (safeTrim, toInt) are modelled from the spec, as noted on their
doc comments.
-/

namespace AnswerForU

/-- Result of an HTTP handler: a JSON success payload, or an HTTP error status
with its message string. -/
inductive ApiResult (α : Type) where
  | ok (val : α)
  | err (status : Nat) (msg : String)
  deriving Repr, DecidableEq

/-- HTTP status of a handler result; a JSON success reply is a 200. -/
def resultStatus {α : Type} : ApiResult α → Nat
  | .ok _ => 200
  | .err s _ => s

/-- Lowercasing used by both JS toLowerCase and SQL LOWER on the ASCII text
this system compares. -/
def jsLower (s : String) : String := ⟨s.data.map Char.toLower⟩

/-- JS String.trim: drop whitespace from both ends. -/
def jsTrim (s : String) : String :=
  ⟨((s.data.dropWhile Char.isWhitespace).reverse.dropWhile Char.isWhitespace).reverse⟩

/-- Modelled from the spec: safeTrim is the host-supplied generic helper for
trimming strings (section 6, collaborating interfaces); a missing or null
value yields the empty string. -/
def safeTrim (v : Option String) : String := jsTrim (v.getD "")

/-- JS `s || null` on a string: the empty string collapses to null. -/
def strOrNull (s : String) : Option String := if s = "" then none else some s

/-- JS `o || ""` on a nullable string column. -/
def orEmpty (o : Option String) : String := o.getD ""

/-- JS `s || d` on a string with a default: the empty string is falsy. -/
def orDefault (s d : String) : String := if s = "" then d else s

/-- JS `o || null` on a nullable string column: an empty string collapses to
null as well. -/
def orNull (o : Option String) : Option String :=
  match o with
  | none => none
  | some s => strOrNull s

/-- Modelled from the spec: toInt is the host-supplied helper coercing values
to integers (section 6); none models a value it could not coerce.  Every
handler tests the result for JS truthiness, so none and 0 are both rejected
with the Bad id error; this helper folds the truthiness test in. -/
def idFrom (v : Option Int) : Option Int :=
  match v with
  | none => none
  | some n => if n == 0 then none else some n

/-- canEdit of carry.js: the JS falsy test on the caller id is a zero test,
then owner equality, then the host admin predicate (passed as a flag). -/
def canEdit (reqUserId rowUserId : Int) (admin : Bool) : Bool :=
  if reqUserId == 0 then false
  else if reqUserId == rowUserId then true
  else admin

/-- Row of the carry_listings table.  Nullable TEXT columns are Option String,
nullable REAL columns Option Rat; data_json holds the opaque serialized
request body. -/
structure Listing where
  id : Int
  user_id : Int
  role : String
  from_country : Option String
  from_city : Option String
  to_country : Option String
  to_city : Option String
  travel_date : Option String
  arrival_date : Option String
  available_weight : Option ℚ
  item_type : Option String
  description : Option String
  reward_amount : Option ℚ
  currency : String
  status : String
  is_active : Int
  data_json : String
  created_at : Nat
  updated_at : Nat
  deriving Repr, DecidableEq

/-- Row of the carry_requests table. -/
structure CarryRequest where
  id : Int
  listing_id : Int
  requester_id : Int
  status : String
  created_at : Nat
  deriving Repr, DecidableEq

/-- Row of the carry_messages table. -/
structure Message where
  id : Int
  listing_id : Int
  sender_id : Int
  message : String
  created_at : Nat
  deriving Repr, DecidableEq

/-- Row of the carry_reviews table. -/
structure Review where
  id : Int
  listing_id : Int
  reviewer_id : Int
  reviewed_user_id : Int
  rating : Int
  comment : Option String
  created_at : Nat
  deriving Repr, DecidableEq

/-- The database state owned by the carry module, with the AUTOINCREMENT
counter of each table. -/
structure DB where
  listings : List Listing
  requests : List CarryRequest
  messages : List Message
  reviews : List Review
  nextListingId : Int
  nextRequestId : Int
  nextMessageId : Int
  nextReviewId : Int
  deriving Repr, DecidableEq

/-- Shape produced by mapListing of carry.js. -/
structure MappedListing where
  id : Int
  user_id : Int
  role : String
  from_country : String
  from_city : String
  to_country : String
  to_city : String
  travel_date : Option String
  arrival_date : Option String
  available_weight : Option ℚ
  item_type : String
  description : String
  reward_amount : Option ℚ
  currency : String
  status : String
  is_active : Int
  created_at : Nat
  updated_at : Nat
  data : String
  deriving Repr, DecidableEq

/-- mapListing of carry.js.  safeJsonParse(row.data_json) keeps the opaque
payload: the JSON round trip is modelled as the stored string itself.
Number(row.is_active || 0) is the identity on the stored 0/1 flag. -/
def mapListing (row : Listing) : MappedListing :=
  { id := row.id
    user_id := row.user_id
    role := row.role
    from_country := orEmpty row.from_country
    from_city := orEmpty row.from_city
    to_country := orEmpty row.to_country
    to_city := orEmpty row.to_city
    travel_date := orNull row.travel_date
    arrival_date := orNull row.arrival_date
    available_weight := row.available_weight
    item_type := orEmpty row.item_type
    description := orEmpty row.description
    reward_amount := row.reward_amount
    currency := orDefault row.currency "USD"
    status := orDefault row.status "open"
    is_active := row.is_active
    created_at := row.created_at
    updated_at := row.updated_at
    data := row.data_json }

/-- clampRole of carry.js: String(v || "").trim().toLowerCase() must be
traveler or sender, else null. -/
def clampRole (v : Option String) : Option String :=
  let r := jsLower (jsTrim (v.getD ""))
  if r = "traveler" || r = "sender" then some r else none

/-- Body of POST /api/carry/listings after the JS Number coercions: a numeric
field is none when absent or null, some none when Number of it is not finite,
and some (some q) when it is the finite number q.  raw models
JSON.stringify(req.body || \x7b\x7d) as an opaque string. -/
structure CreateBody where
  role : Option String
  from_country : Option String
  from_city : Option String
  to_country : Option String
  to_city : Option String
  travel_date : Option String
  arrival_date : Option String
  available_weight : Option (Option ℚ)
  item_type : Option String
  description : Option String
  reward_amount : Option (Option ℚ)
  currency : Option String
  raw : String
  deriving Repr, DecidableEq

/-- Row inserted by the create handler: status open, is_active 1, owner the
calling user; Number.isFinite gates the numeric inputs (Option.join). -/
def newListing (st : DB) (uid : Int) (role : String) (body : CreateBody)
    (now : Nat) : Listing :=
  { id := st.nextListingId
    user_id := uid
    role := role
    from_country := strOrNull (safeTrim body.from_country)
    from_city := strOrNull (safeTrim body.from_city)
    to_country := strOrNull (safeTrim body.to_country)
    to_city := strOrNull (safeTrim body.to_city)
    travel_date := strOrNull (safeTrim body.travel_date)
    arrival_date := strOrNull (safeTrim body.arrival_date)
    available_weight := body.available_weight.join
    item_type := strOrNull (safeTrim body.item_type)
    description := strOrNull (safeTrim body.description)
    reward_amount := body.reward_amount.join
    currency := orDefault (safeTrim body.currency) "USD"
    status := "open"
    is_active := 1
    data_json := body.raw
    created_at := now
    updated_at := now }

/-- POST /api/carry/listings: reject a bad role with 400, else insert the new
row and return it mapped (the handler refetches the row it just inserted). -/
def createListing (st : DB) (uid : Int) (body : CreateBody) (now : Nat) :
    ApiResult MappedListing × DB :=
  match clampRole body.role with
  | none => (.err 400 "Bad role", st)
  | some role =>
    let row := newListing st uid role body now
    (.ok (mapListing row),
     { st with listings := st.listings ++ [row],
               nextListingId := st.nextListingId + 1 })

/-- SELECT from carry_listings WHERE id=? (no is_active filter), as issued by
the update, delete, accept, reject and review handlers. -/
def findListingById (st : DB) (id : Int) : Option Listing :=
  st.listings.find? (fun l => l.id == id)

/-- SELECT from carry_listings WHERE id=? AND is_active=1, as issued by the
details handler and the request create handler. -/
def findActiveListing (st : DB) (id : Int) : Option Listing :=
  st.listings.find? (fun l => l.id == id && l.is_active == 1)

/-- SELECT from carry_requests WHERE id=?. -/
def findRequestById (st : DB) (id : Int) : Option CarryRequest :=
  st.requests.find? (fun r => r.id == id)

/-- Status of the request row a read by id would return. -/
def requestStatus (st : DB) (id : Int) : Option String :=
  (findRequestById st id).map (fun r => r.status)

/-- Status of the listing row a read by id would return. -/
def listingStatus (st : DB) (id : Int) : Option String :=
  (findListingById st id).map (fun l => l.status)

/-- Body of PATCH /api/carry/listings/:id, with the same field conventions as
CreateBody. -/
structure UpdateBody where
  from_country : Option String
  from_city : Option String
  to_country : Option String
  to_city : Option String
  travel_date : Option String
  arrival_date : Option String
  available_weight : Option (Option ℚ)
  item_type : Option String
  description : Option String
  reward_amount : Option (Option ℚ)
  currency : Option String
  raw : String
  deriving Repr, DecidableEq

/-- SQL COALESCE(NULLIF(new, empty), old) on a nullable column: keep the old
value when the supplied trimmed value is empty. -/
def coalesceStr (newVal : String) (old : Option String) : Option String :=
  if newVal = "" then old else some newVal

/-- SQL COALESCE(NULLIF(new, empty), old) on a NOT NULL text column. -/
def coalesceStrD (newVal : String) (old : String) : String :=
  if newVal = "" then old else newVal

/-- SQL COALESCE(new, old) on a nullable numeric column. -/
def coalesceNum (newVal : Option ℚ) (old : Option ℚ) : Option ℚ :=
  match newVal with
  | some v => some v
  | none => old

/-- The UPDATE statement of the update handler applied to one listing row. -/
def applyUpdate (body : UpdateBody) (now : Nat) (l : Listing) : Listing :=
  { l with
    from_country := coalesceStr (safeTrim body.from_country) l.from_country
    from_city := coalesceStr (safeTrim body.from_city) l.from_city
    to_country := coalesceStr (safeTrim body.to_country) l.to_country
    to_city := coalesceStr (safeTrim body.to_city) l.to_city
    travel_date := coalesceStr (safeTrim body.travel_date) l.travel_date
    arrival_date := coalesceStr (safeTrim body.arrival_date) l.arrival_date
    available_weight := coalesceNum body.available_weight.join l.available_weight
    item_type := coalesceStr (safeTrim body.item_type) l.item_type
    description := coalesceStr (safeTrim body.description) l.description
    reward_amount := coalesceNum body.reward_amount.join l.reward_amount
    currency := coalesceStrD (safeTrim body.currency) l.currency
    data_json := body.raw
    updated_at := now }

/-- PATCH /api/carry/listings/:id: id guard, fetch by id (with no is_active
filter), ownership check, then the merge-by-field UPDATE; the handler
refetches and returns the updated row mapped. -/
def updateListing (st : DB) (uid : Int) (admin : Bool) (idRaw : Option Int)
    (body : UpdateBody) (now : Nat) : ApiResult MappedListing × DB :=
  match idFrom idRaw with
  | none => (.err 400 "Bad id", st)
  | some id =>
    match findListingById st id with
    | none => (.err 404 "Not found", st)
    | some row =>
      if canEdit uid row.user_id admin then
        (.ok (mapListing (applyUpdate body now row)),
         { st with listings :=
             st.listings.map (fun l => if l.id == id then applyUpdate body now l else l) })
      else (.err 403 "Forbidden", st)

/-- DELETE /api/carry/listings/:id: id guard, fetch by id (with no is_active
filter), ownership check, then UPDATE carry_listings SET is_active=0. -/
def deleteListing (st : DB) (uid : Int) (admin : Bool) (idRaw : Option Int)
    (now : Nat) : ApiResult Unit × DB :=
  match idFrom idRaw with
  | none => (.err 400 "Bad id", st)
  | some id =>
    match findListingById st id with
    | none => (.err 404 "Not found", st)
    | some row =>
      if canEdit uid row.user_id admin then
        (.ok (),
         { st with listings :=
             st.listings.map (fun l =>
               if l.id == id then { l with is_active := 0, updated_at := now } else l) })
      else (.err 403 "Forbidden", st)

/-- Success payload of the request create handler. -/
structure RequestAck where
  request_id : Int
  status : String
  deriving Repr, DecidableEq

/-- POST /api/carry/listings/:id/request: id guard, active listing fetch, own
listing check, open status check, then the duplicate/reuse logic on the
existing (listing, requester) row.  The JS truthiness test on existing?.id is
kept as the id != 0 tests. -/
def createRequest (st : DB) (uid : Int) (idRaw : Option Int) (now : Nat) :
    ApiResult RequestAck × DB :=
  match idFrom idRaw with
  | none => (.err 400 "Bad id", st)
  | some listingId =>
    match findActiveListing st listingId with
    | none => (.err 404 "Not found", st)
    | some listing =>
      if listing.user_id == uid then
        (.err 400 "You can\x27t request your own listing", st)
      else if listing.status != "open" then (.err 400 "Listing not open", st)
      else
        let inserted : CarryRequest :=
          { id := st.nextRequestId, listing_id := listingId,
            requester_id := uid, status := "pending", created_at := now }
        let insertRes : ApiResult RequestAck × DB :=
          (.ok { request_id := st.nextRequestId, status := "pending" },
           { st with requests := st.requests ++ [inserted],
                     nextRequestId := st.nextRequestId + 1 })
        match st.requests.find? (fun r => r.listing_id == listingId && r.requester_id == uid) with
        | none => insertRes
        | some e =>
          if e.id != 0 && e.status != "cancelled" then
            (.err 400 "Already requested", st)
          else if e.id != 0 then
            (.ok { request_id := e.id, status := "pending" },
             { st with requests :=
                 st.requests.map (fun r =>
                   if r.id == e.id then { r with status := "pending" } else r) })
          else insertRes

/-- PATCH /api/carry/requests/:id/accept: resolve the request, then its parent
listing (distinct 404s), check ownership against the listing, then set the
request accepted and the listing matched. -/
def acceptRequest (st : DB) (uid : Int) (admin : Bool) (idRaw : Option Int)
    (now : Nat) : ApiResult Unit × DB :=
  match idFrom idRaw with
  | none => (.err 400 "Bad id", st)
  | some requestId =>
    match findRequestById st requestId with
    | none => (.err 404 "Not found", st)
    | some reqRow =>
      match findListingById st reqRow.listing_id with
      | none => (.err 404 "Listing missing", st)
      | some listing =>
        if canEdit uid listing.user_id admin then
          (.ok (),
           { st with
             requests := st.requests.map (fun r =>
               if r.id == requestId then { r with status := "accepted" } else r)
             listings := st.listings.map (fun l =>
               if l.id == listing.id then { l with status := "matched", updated_at := now } else l) })
        else (.err 403 "Forbidden", st)

/-- PATCH /api/carry/requests/:id/reject: same resolution chain as accept, but
only the request row is written. -/
def rejectRequest (st : DB) (uid : Int) (admin : Bool) (idRaw : Option Int)
    (_now : Nat) : ApiResult Unit × DB :=
  match idFrom idRaw with
  | none => (.err 400 "Bad id", st)
  | some requestId =>
    match findRequestById st requestId with
    | none => (.err 404 "Not found", st)
    | some reqRow =>
      match findListingById st reqRow.listing_id with
      | none => (.err 404 "Listing missing", st)
      | some listing =>
        if canEdit uid listing.user_id admin then
          (.ok (),
           { st with requests := st.requests.map (fun r =>
               if r.id == requestId then { r with status := "rejected" } else r) })
        else (.err 403 "Forbidden", st)

/-- POST /api/carry/listings/:id/messages: id guard and non-empty trimmed text
are the only checks; the row is inserted and returned (the handler refetches
the row it just inserted).  No listing lookup happens. -/
def postMessage (st : DB) (uid : Int) (idRaw : Option Int)
    (text : Option String) (now : Nat) : ApiResult Message × DB :=
  match idFrom idRaw with
  | none => (.err 400 "Bad id", st)
  | some listingId =>
    let msg := safeTrim text
    if msg = "" then (.err 400 "Missing message", st)
    else
      let row : Message :=
        { id := st.nextMessageId, listing_id := listingId,
          sender_id := uid, message := msg, created_at := now }
      (.ok row,
       { st with messages := st.messages ++ [row],
                 nextMessageId := st.nextMessageId + 1 })

/-- Math.round of a finite JS number: floor of x + 1/2. -/
def jsRound (q : ℚ) : Int := (q + 1/2).floor

/-- clampRating of carry.js: Number(v) must be finite (none models NaN and the
infinities), then Math.round, then Math.max(1, Math.min(5, x)). -/
def clampRating (v : Option ℚ) : Option Int :=
  match v with
  | none => none
  | some q => some (max 1 (min 5 (jsRound q)))

/-- POST /api/carry/listings/:id/review: id guard, rating clamp with JS falsy
test (null or 0), comment trim, listing fetch (no is_active filter),
reviewed_user_id defaulting to the listing owner on a falsy input, insert. -/
def postReview (st : DB) (uid : Int) (idRaw : Option Int) (rating : Option ℚ)
    (comment : Option String) (reviewedUserId : Option Int) (now : Nat) :
    ApiResult Unit × DB :=
  match idFrom idRaw with
  | none => (.err 400 "Bad id", st)
  | some listingId =>
    match clampRating rating with
    | none => (.err 400 "Bad rating", st)
    | some rv =>
      if rv == 0 then (.err 400 "Bad rating", st)
      else
        let commentVal := strOrNull (safeTrim comment)
        match findListingById st listingId with
        | none => (.err 404 "Not found", st)
        | some listing =>
          let ruid :=
            match reviewedUserId with
            | some v => if v == 0 then listing.user_id else v
            | none => listing.user_id
          let row : Review :=
            { id := st.nextReviewId, listing_id := listingId, reviewer_id := uid,
              reviewed_user_id := ruid, rating := rv, comment := commentVal,
              created_at := now }
          (.ok (),
           { st with reviews := st.reviews ++ [row],
                     nextReviewId := st.nextReviewId + 1 })

/-- Row of the airports table.  The nullable text columns are modelled as
strings: every SQL read of them in the module goes through COALESCE(col, the
empty string), so NULL and the empty string are indistinguishable here. -/
structure Airport where
  iata : String
  icao : String
  name : String
  city : String
  country : String
  country_code : String
  lat : ℚ
  lon : ℚ
  deriving Repr, DecidableEq

/-- Bool test that pat is a leading segment of l. -/
def likeStartsL : List Char → List Char → Bool
  | [], _ => true
  | _ :: _, [] => false
  | a :: pat, b :: l => a == b && likeStartsL pat l

/-- Bool test that pat occurs as a contiguous segment of l. -/
def likeHasL : List Char → List Char → Bool
  | pat, [] => likeStartsL pat []
  | pat, b :: l => likeStartsL pat (b :: l) || likeHasL pat l

/-- SQL LOWER(COALESCE(col, empty)) LIKE the pattern percent-q-percent built by
the search endpoint, for a query without LIKE metacharacters: containment of
the lowered query in the lowered column. -/
def sqlLikeHas (col q : String) : Bool := likeHasL q.data (jsLower col).data

/-- SQL LOWER(COALESCE(col, empty)) LIKE the pattern q-percent: the lowered
column starts with the lowered query. -/
def sqlLikeStarts (col q : String) : Bool := likeStartsL q.data (jsLower col).data

/-- WHERE clause of the airport search: the lowered query is contained in any
of iata, icao, city, name, country. -/
def airportMatches (ql : String) (a : Airport) : Bool :=
  sqlLikeHas a.iata ql || sqlLikeHas a.icao ql || sqlLikeHas a.city ql ||
  sqlLikeHas a.name ql || sqlLikeHas a.country ql

/-- The CASE expression of the ORDER BY: 0 exact iata, 1 iata starts with the
query, 2 city starts with it, 3 name starts with it, 4 anything else. -/
def airportRank (ql : String) (a : Airport) : Nat :=
  if jsLower a.iata = ql then 0
  else if sqlLikeStarts a.iata ql then 1
  else if sqlLikeStarts a.city ql then 2
  else if sqlLikeStarts a.name ql then 3
  else 4

/-- Full ORDER BY key: the CASE rank, then LENGTH(iata), then LENGTH(city). -/
def airportKey (ql : String) (a : Airport) : Nat × Nat × Nat :=
  (airportRank ql a, a.iata.length, a.city.length)

/-- Lexicographic comparison of ORDER BY keys. -/
def keyLex (k₁ k₂ : Nat × Nat × Nat) : Prop :=
  k₁.1 < k₂.1 ∨ (k₁.1 = k₂.1 ∧
    (k₁.2.1 < k₂.2.1 ∨ (k₁.2.1 = k₂.2.1 ∧ k₁.2.2 ≤ k₂.2.2)))

instance (k₁ k₂ : Nat × Nat × Nat) : Decidable (keyLex k₁ k₂) := by
  unfold keyLex; exact inferInstance

/-- Row order the ORDER BY clause of the search statement asks for. -/
def airportOrder (ql : String) (a b : Airport) : Prop :=
  keyLex (airportKey ql a) (airportKey ql b)

instance (ql : String) : DecidableRel (airportOrder ql) := fun a b => by
  unfold airportOrder; exact inferInstance

instance (ql : String) : IsTotal Airport (airportOrder ql) := by
  constructor
  intro a b
  unfold airportOrder keyLex
  omega

instance (ql : String) : IsTrans Airport (airportOrder ql) := by
  constructor
  intro a b c hab hbc
  unfold airportOrder keyLex at hab hbc ⊢
  omega

/-- Rows of GET /api/airports/search: trim the query, clamp the limit into
[5, 50] (default 20 is supplied by the caller of this model), short-circuit a
query shorter than 2 characters, else filter, order by the key and apply the
LIMIT.  SQL promises any key-ordered permutation; insertionSort realizes one. -/
def searchRows (table : List Airport) (q : String) (limitRaw : Int) :
    List Airport :=
  let qt := jsTrim q
  let lim := min 50 (max 5 limitRaw)
  if qt.length < 2 then []
  else
    let ql := jsLower qt
    (((table.filter (airportMatches ql)).insertionSort (airportOrder ql)).take lim.toNat)

/-- GET /api/airports/search including its HTTP shape: the endpoint replies 200
with the bare row array; its 500 branch fires only on a storage failure, which
the pure model does not have. -/
def searchAirports (table : List Airport) (q : String) (limitRaw : Int) :
    ApiResult (List Airport) :=
  .ok (searchRows table q limitRaw)

/-! ## Helper lemmas -/

/-- A find? over a list updated pointwise by an id-preserving edit returns the
edit of what find? returned before, provided the edit preserves the search
predicate. -/
theorem find?_map_ite {α : Type} (l : List α) (p q : α → Bool) (g : α → α)
    (hg : ∀ x, p (g x) = p x) :
    (l.map (fun x => if q x then g x else x)).find? p
      = (l.find? p).map (fun x => if q x then g x else x) := by
  induction l with
  | nil => rfl
  | cons a l ih =>
    have hga := hg a
    cases hq : q a <;> cases hp : p a <;>
      simp_all [List.find?_cons, List.map_cons]

/-- canEdit accepts an authenticated owner and an authenticated admin. -/
theorem canEdit_true (uid rowId : Int) (admin : Bool)
    (hu : uid ≠ 0) (h : uid = rowId ∨ admin = true) :
    canEdit uid rowId admin = true := by
  unfold canEdit
  have h0 : (uid == 0) = false := by simpa using hu
  rw [h0]
  by_cases h1 : uid = rowId
  · have h1' : (uid == rowId) = true := by simpa using h1
    simp [h1']
  · have h1' : (uid == rowId) = false := by simpa using h1
    rcases h with h | h
    · exact absurd h h1
    · simp [h1', h]

/-- canEdit rejects a caller who is neither the row owner nor an admin. -/
theorem canEdit_false (uid rowId : Int) (admin : Bool)
    (h1 : uid ≠ rowId) (h2 : admin = false) :
    canEdit uid rowId admin = false := by
  unfold canEdit
  have h1' : (uid == rowId) = false := by simpa using h1
  rw [h1', h2]
  cases h0 : (uid == 0) <;> simp

/-- A successful review submission appends exactly one row carrying the
clamped rating. -/
theorem postReview_stores
    (st : DB) (uid lid : Int) (q : ℚ) (comment : Option String)
    (ruid : Option Int) (now : Nat) (l : Listing) (rv : Int)
    (hlid : (lid == 0) = false)
    (hl : findListingById st lid = some l)
    (hcl : clampRating (some q) = some rv)
    (hrv : (rv == 0) = false) :
    (postReview st uid (some lid) (some q) comment ruid now).2.reviews.map (fun x => x.rating)
      = st.reviews.map (fun x => x.rating) ++ [rv] := by
  simp only [postReview, idFrom, hlid, Bool.false_eq_true, if_false, hcl, hrv, hl]
  simp

/-! ## Concrete states used by witnesses and counterexamples -/

/-- An active open listing owned by user 5. -/
def sampleListing : Listing :=
  { id := 1, user_id := 5, role := "traveler", from_country := none,
    from_city := none, to_country := none, to_city := none, travel_date := none,
    arrival_date := none, available_weight := none, item_type := none,
    description := none, reward_amount := none, currency := "USD",
    status := "open", is_active := 1, data_json := "", created_at := 0,
    updated_at := 0 }

/-- A PATCH body supplying no field. -/
def emptyUpdateBody : UpdateBody :=
  { from_country := none, from_city := none, to_country := none, to_city := none,
    travel_date := none, arrival_date := none, available_weight := none,
    item_type := none, description := none, reward_amount := none,
    currency := none, raw := "" }

/-- Database holding only a soft-deleted listing owned by user 5. -/
def c3state : DB :=
  { listings := [{ sampleListing with is_active := 0 }], requests := [],
    messages := [], reviews := [],
    nextListingId := 2, nextRequestId := 1, nextMessageId := 1, nextReviewId := 1 }

/-- Database holding one active listing. -/
def oneListingDB : DB :=
  { listings := [sampleListing], requests := [], messages := [], reviews := [],
    nextListingId := 2, nextRequestId := 1, nextMessageId := 1, nextReviewId := 1 }

/-- Database where the listing is matched and user 9 holds a cancelled
request for it. -/
def c5state : DB :=
  { listings := [{ sampleListing with status := "matched" }],
    requests := [{ id := 7, listing_id := 1, requester_id := 9,
                   status := "cancelled", created_at := 0 }],
    messages := [], reviews := [],
    nextListingId := 2, nextRequestId := 8, nextMessageId := 1, nextReviewId := 1 }

/-- Database where user 9 holds a pending request on the open listing of
user 5. -/
def pendingReqDB : DB :=
  { listings := [sampleListing],
    requests := [{ id := 7, listing_id := 1, requester_id := 9,
                   status := "pending", created_at := 0 }],
    messages := [], reviews := [],
    nextListingId := 2, nextRequestId := 8, nextMessageId := 1, nextReviewId := 1 }

/-- Database where user 9 holds an accepted request on the listing of
user 5. -/
def acceptedReqDB : DB :=
  { listings := [sampleListing],
    requests := [{ id := 1, listing_id := 1, requester_id := 9,
                   status := "accepted", created_at := 0 }],
    messages := [], reviews := [],
    nextListingId := 2, nextRequestId := 2, nextMessageId := 1, nextReviewId := 1 }

/-- An empty database. -/
def emptyDB : DB :=
  { listings := [], requests := [], messages := [], reviews := [],
    nextListingId := 1, nextRequestId := 1, nextMessageId := 1, nextReviewId := 1 }

/-- A create body whose role value normalizes to traveler. -/
def c7body : CreateBody :=
  { role := some "  Traveler ", from_country := none, from_city := some "Paris",
    to_country := none, to_city := some "Lagos", travel_date := none,
    arrival_date := none, available_weight := none, item_type := none,
    description := none, reward_amount := none, currency := none, raw := "" }

/-- The airport whose iata equals the query jfk up to case. -/
def jfkAirport : Airport :=
  { iata := "jfk", icao := "KJFK", name := "John F Kennedy Intl",
    city := "New York", country := "United States", country_code := "US",
    lat := 0, lon := 0 }

/-- An airport whose city merely contains jfk. -/
def cityAirport : Airport :=
  { iata := "AAA", icao := "ZZZZ", name := "Other",
    city := "xjfkx", country := "Nowhere", country_code := "NW",
    lat := 0, lon := 0 }

/-! ## Claim theorems -/

/-- C1: accepting an existing match request whose parent listing exists, called
by the listing owner or an admin, succeeds, sets the request status to
accepted and the parent listing status to matched, and both changes are
visible together on the next read of either row. -/
theorem accept_marks_request_and_listing
    (st : DB) (uid : Int) (admin : Bool) (rid : Int) (now : Nat)
    (r : CarryRequest) (l : Listing)
    (hrid : rid ≠ 0)
    (hr : findRequestById st rid = some r)
    (hl : findListingById st r.listing_id = some l)
    (hu : uid ≠ 0)
    (hown : uid = l.user_id ∨ admin = true) :
    (acceptRequest st uid admin (some rid) now).1 = .ok () ∧
    requestStatus (acceptRequest st uid admin (some rid) now).2 rid = some "accepted" ∧
    listingStatus (acceptRequest st uid admin (some rid) now).2 r.listing_id = some "matched" := by
  have hedit := canEdit_true uid l.user_id admin hu hown
  have hridb : (rid == 0) = false := by simpa using hrid
  have hid : l.id = r.listing_id := by simpa using List.find?_some hl
  have hr' : st.requests.find? (fun x => x.id == rid) = some r := hr
  have hl' : st.listings.find? (fun x => x.id == r.listing_id) = some l := hl
  have hacc : acceptRequest st uid admin (some rid) now =
      (.ok (),
       { st with
         requests := st.requests.map (fun x =>
           if x.id == rid then { x with status := "accepted" } else x)
         listings := st.listings.map (fun x =>
           if x.id == l.id then { x with status := "matched", updated_at := now } else x) }) := by
    simp only [acceptRequest, idFrom, hridb, Bool.false_eq_true, if_false, hr, hl, hedit, if_true]
  rw [hacc]
  refine ⟨rfl, ?_, ?_⟩
  · unfold requestStatus findRequestById
    rw [find?_map_ite st.requests (fun x => x.id == rid) (fun x => x.id == rid)
          (fun x => { x with status := "accepted" }) (fun x => rfl), hr']
    have hq : r.id = rid := by simpa using List.find?_some hr'
    simp [hq]
  · unfold listingStatus findListingById
    rw [hid]
    rw [find?_map_ite st.listings (fun x => x.id == r.listing_id) (fun x => x.id == r.listing_id)
          (fun x => { x with status := "matched", updated_at := now }) (fun x => rfl), hl']
    have hq : l.id = r.listing_id := by simpa using List.find?_some hl'
    simp [hq]

/-- C1 witness: the owner of listing 1 accepts the pending request 7 and the
next read shows the request accepted and the listing matched. -/
theorem accept_marks_request_and_listing_witness :
    (acceptRequest pendingReqDB 5 false (some 7) 3).1 = .ok () ∧
    requestStatus (acceptRequest pendingReqDB 5 false (some 7) 3).2 7 = some "accepted" ∧
    listingStatus (acceptRequest pendingReqDB 5 false (some 7) 3).2 1 = some "matched" :=
  accept_marks_request_and_listing pendingReqDB 5 false 7 3
    ⟨7, 1, 9, "pending", 0⟩ sampleListing
    (by decide) (by decide) (by decide) (by decide) (Or.inl (by decide))

/-- C2 counterexample: a request already in the terminal accepted state is
rewritten to rejected by a subsequent reject call from the listing owner, so
accepted is not terminal under the reject operation. -/
theorem reject_overwrites_accepted :
    requestStatus acceptedReqDB 1 = some "accepted" ∧
    (rejectRequest acceptedReqDB 5 false (some 1) 1).1 = .ok () ∧
    requestStatus (rejectRequest acceptedReqDB 5 false (some 1) 1).2 1 = some "rejected" := by
  decide

/-- C2 amended: accepted and rejected are terminal only with respect to the
request create operation, which never changes the status of such a request
(a cancelled request alone is reset to pending); the accept and reject
handlers check no prior status and can overwrite accepted with rejected and
conversely. -/
theorem create_request_preserves_terminal
    (st : DB) (uid : Int) (lidRaw : Option Int) (now : Nat) (rid : Int)
    (r : CarryRequest)
    (hnodup : (st.requests.map (fun x => x.id)).Nodup)
    (hr : findRequestById st rid = some r)
    (hterm : r.status = "accepted" ∨ r.status = "rejected") :
    requestStatus (createRequest st uid lidRaw now).2 rid = some r.status := by
  have hr' : st.requests.find? (fun x => x.id == rid) = some r := hr
  have base : requestStatus st rid = some r.status := by
    unfold requestStatus findRequestById
    rw [hr']
    rfl
  unfold createRequest
  cases hi : idFrom lidRaw with
  | none => simp only [hi]; exact base
  | some lid =>
    simp only [hi]
    cases hfl : findActiveListing st lid with
    | none => simp only [hfl]; exact base
    | some listing =>
      simp only [hfl]
      cases ho : (listing.user_id == uid) with
      | true => simp only [ho, if_true]; exact base
      | false =>
        simp only [ho, Bool.false_eq_true, if_false]
        cases hop : (listing.status != "open") with
        | true => simp only [hop, if_true]; exact base
        | false =>
          simp only [hop, Bool.false_eq_true, if_false]
          cases hex : st.requests.find? (fun x => x.listing_id == lid && x.requester_id == uid) with
          | none =>
            simp only [hex]
            unfold requestStatus findRequestById
            simp [List.find?_append, hr', Option.or]
          | some e =>
            simp only [hex]
            cases hc1 : (e.id != 0 && e.status != "cancelled") with
            | true => simp only [hc1, if_true]; exact base
            | false =>
              simp only [hc1, Bool.false_eq_true, if_false]
              cases hc2 : (e.id != 0) with
              | false =>
                simp only [hc2, Bool.false_eq_true, if_false]
                unfold requestStatus findRequestById
                simp [List.find?_append, hr', Option.or]
              | true =>
                simp only [hc2, if_true]
                have hcanc : e.status = "cancelled" := by
                  rw [hc2] at hc1
                  simpa using hc1
                have hre : r ∈ st.requests := List.mem_of_find?_eq_some hr'
                have hee : e ∈ st.requests := List.mem_of_find?_eq_some hex
                have hrne : r ≠ e := by
                  intro h
                  rcases hterm with h1 | h1 <;> rw [h, hcanc] at h1 <;> exact absurd h1 (by decide)
                have hne : (r.id == e.id) = false := by
                  have h2 : r.id ≠ e.id := fun hid =>
                    hrne (List.inj_on_of_nodup_map hnodup hre hee hid)
                  simpa using h2
                unfold requestStatus findRequestById
                rw [find?_map_ite st.requests (fun x => x.id == rid) (fun x => x.id == e.id)
                      (fun x => { x with status := "pending" }) (fun x => rfl), hr']
                have hne2 : r.id ≠ e.id := by simpa using hne
                simp [hne2]

/-- C2 amended witness: a create call by the same requester leaves the
accepted request 1 untouched. -/
theorem create_request_preserves_terminal_witness :
    requestStatus (createRequest acceptedReqDB 9 (some 1) 5).2 1 = some "accepted" :=
  create_request_preserves_terminal acceptedReqDB 9 (some 1) 5 1
    ⟨1, 1, 9, "accepted", 0⟩ (by decide) (by decide) (Or.inl rfl)

/-- C3 counterexample: the owner updates and soft-deletes a listing whose
is_active flag is 0; both operations succeed instead of failing with the
not-found error the claim requires for inactive listings. -/
theorem inactive_listing_update_delete_succeed :
    (deleteListing c3state 5 false (some 1) 9).1 = .ok () ∧
    (updateListing c3state 5 false (some 1) emptyUpdateBody 9).1
      = .ok (mapListing { sampleListing with is_active := 0, updated_at := 9 }) := by
  decide

/-- C3 amended: for update and soft delete, an absent listing id fails with
the not-found error and an existing listing with a caller who is neither
owner nor admin fails with the forbidden error; an inactive listing is not
filtered out by these two handlers and behaves like an existing one. -/
theorem update_delete_guards
    (st : DB) (uid : Int) (admin : Bool) (idv : Int) (body : UpdateBody) (now : Nat)
    (hid : idv ≠ 0) :
    (findListingById st idv = none →
       (updateListing st uid admin (some idv) body now).1 = .err 404 "Not found" ∧
       (deleteListing st uid admin (some idv) now).1 = .err 404 "Not found") ∧
    (∀ row, findListingById st idv = some row →
       uid ≠ row.user_id → admin = false →
       (updateListing st uid admin (some idv) body now).1 = .err 403 "Forbidden" ∧
       (deleteListing st uid admin (some idv) now).1 = .err 403 "Forbidden") := by
  have hb : (idv == 0) = false := by simpa using hid
  constructor
  · intro hn
    constructor
    · simp only [updateListing, idFrom, hb, Bool.false_eq_true, if_false, hn]
    · simp only [deleteListing, idFrom, hb, Bool.false_eq_true, if_false, hn]
  · intro row hrow hno hadm
    have hce := canEdit_false uid row.user_id admin hno hadm
    constructor
    · simp only [updateListing, idFrom, hb, Bool.false_eq_true, if_false, hrow, hce]
    · simp only [deleteListing, idFrom, hb, Bool.false_eq_true, if_false, hrow, hce]

/-- C3 amended witness: caller 7, neither owner nor admin, gets the forbidden
error from both update and delete on listing 1. -/
theorem update_delete_guards_witness :
    (updateListing oneListingDB 7 false (some 1) emptyUpdateBody 0).1 = .err 403 "Forbidden" ∧
    (deleteListing oneListingDB 7 false (some 1) 0).1 = .err 403 "Forbidden" :=
  (update_delete_guards oneListingDB 7 false 1 emptyUpdateBody 0 (by decide)).2
    sampleListing (by decide) (by decide) rfl

/-- C4 counterexample: the owner of a soft-deleted listing who requests it
gets the not-found 404, not a 400 validation error, so the claim fails when
quantified over every listing. -/
theorem own_inactive_listing_request_not_400 :
    resultStatus (createRequest c3state 5 (some 1) 0).1 = 404 ∧
    resultStatus (createRequest c3state 5 (some 1) 0).1 ≠ 400 := by
  decide

/-- C4 amended: for every ACTIVE listing owned by the caller, creating a
match request against it fails with the 400 own-listing validation error,
regardless of the listing status, and the state is unchanged. -/
theorem own_listing_request_400
    (st : DB) (uid lid : Int) (now : Nat) (l : Listing)
    (hlid : lid ≠ 0)
    (hl : findActiveListing st lid = some l)
    (hown : l.user_id = uid) :
    createRequest st uid (some lid) now
      = (.err 400 "You can\x27t request your own listing", st) := by
  have hb : (lid == 0) = false := by simpa using hlid
  have ho : (l.user_id == uid) = true := by simpa using hown
  simp only [createRequest, idFrom, hb, Bool.false_eq_true, if_false, hl, ho, if_true]

/-- C4 amended witness: the owner requesting the own active listing of
status matched gets the 400 own-listing error. -/
theorem own_listing_request_400_witness :
    createRequest c5state 5 (some 1) 0
      = (.err 400 "You can\x27t request your own listing", c5state) :=
  own_listing_request_400 c5state 5 1 0 { sampleListing with status := "matched" }
    (by decide) (by decide) (by decide)

/-- C5 counterexample: with the parent listing active but matched, a second
create by the holder of a cancelled request fails with the listing-not-open
400 instead of reusing the cancelled row, which stays cancelled. -/
theorem cancelled_not_reused_when_not_open :
    createRequest c5state 9 (some 1) 1 = (.err 400 "Listing not open", c5state) ∧
    requestStatus c5state 7 = some "cancelled" := by
  decide

/-- C5 amended: when the listing is active, open, and the caller is not its
owner, a second create by the holder of a non-cancelled request fails with
the duplicate-request 400 error leaving the state unchanged, and a cancelled
request is reused: the reply carries the old request id with status pending,
the row is reset to pending in place, and no row is inserted. -/
theorem request_duplicate_or_reuse
    (st : DB) (uid lid : Int) (now : Nat) (l : Listing) (r : CarryRequest)
    (hlid : lid ≠ 0)
    (hl : findActiveListing st lid = some l)
    (hnotown : l.user_id ≠ uid)
    (hopen : l.status = "open")
    (hr : st.requests.find? (fun x => x.listing_id == lid && x.requester_id == uid) = some r)
    (hrid : r.id ≠ 0) :
    (r.status ≠ "cancelled" →
       createRequest st uid (some lid) now = (.err 400 "Already requested", st)) ∧
    (r.status = "cancelled" →
       (createRequest st uid (some lid) now).1
         = .ok { request_id := r.id, status := "pending" } ∧
       (createRequest st uid (some lid) now).2.requests
         = st.requests.map (fun x => if x.id == r.id then { x with status := "pending" } else x) ∧
       (createRequest st uid (some lid) now).2.requests.length = st.requests.length) := by
  have hb : (lid == 0) = false := by simpa using hlid
  have ho : (l.user_id == uid) = false := by simpa using hnotown
  have hop : (l.status != "open") = false := by simp [hopen]
  constructor
  · intro hc
    have hc1 : (r.id != 0 && r.status != "cancelled") = true := by
      simp [bne_iff_ne, hrid, hc]
    simp only [createRequest, idFrom, hb, Bool.false_eq_true, if_false, hl, ho, hop,
      hr, hc1, if_true]
  · intro hc
    have hc2 : (r.id != 0) = true := by simpa [bne_iff_ne] using hrid
    simp only [createRequest, idFrom, hb, Bool.false_eq_true, if_false, hl, ho, hop,
      hr, hc2, hc, bne_self_eq_false, Bool.true_and, Bool.and_false, if_true]
    refine ⟨trivial, trivial, ?_⟩
    simp

/-- C5 amended witness: a second create on the open listing fails with the
duplicate-request error while the first request is still pending. -/
theorem request_duplicate_or_reuse_witness :
    createRequest pendingReqDB 9 (some 1) 1 = (.err 400 "Already requested", pendingReqDB) :=
  (request_duplicate_or_reuse pendingReqDB 9 1 1 sampleListing ⟨7, 1, 9, "pending", 0⟩
    (by decide) (by decide) (by decide) rfl (by decide) (by decide)).1 (by decide)

/-- C6 counterexample: a review with numeric rating 3.7 is stored with rating
4, the Math.round result, not 3 as the claim states. -/
theorem rating_37_stored_as_4 :
    (postReview oneListingDB 9 (some 1) (some (37/10)) none none 0).2.reviews.map (fun x => x.rating) = [4] ∧
    (4 : Int) ≠ 3 := by
  constructor
  · have h := postReview_stores oneListingDB 9 1 (37/10) none none 0 sampleListing 4
      (by decide) (by decide) (by norm_num [clampRating, jsRound, Rat.floor]) (by decide)
    simpa using h
  · decide

/-- C6 amended: a numeric rating is rounded to the nearest integer and
clamped into the interval from 1 to 5 before storage; the inputs 0, 6 and
3.7 are stored as 1, 5 and 4 respectively, and a non-numeric rating is
rejected with the 400 bad-rating error. -/
theorem review_rating_clamped
    (st : DB) (uid lid : Int) (q : ℚ) (comment : Option String) (ruid : Option Int)
    (now : Nat) (l : Listing)
    (hlid : lid ≠ 0)
    (hl : findListingById st lid = some l) :
    ((postReview st uid (some lid) (some q) comment ruid now).2.reviews.map (fun x => x.rating)
       = st.reviews.map (fun x => x.rating) ++ [max 1 (min 5 (jsRound q))]) ∧
    (1 ≤ max 1 (min 5 (jsRound q)) ∧ max 1 (min 5 (jsRound q)) ≤ 5) ∧
    clampRating (some 0) = some 1 ∧
    clampRating (some 6) = some 5 ∧
    clampRating (some (37/10)) = some 4 ∧
    (postReview st uid (some lid) none comment ruid now).1 = .err 400 "Bad rating" := by
  have hb : (lid == 0) = false := by simpa using hlid
  have hbound : 1 ≤ max 1 (min 5 (jsRound q)) ∧ max 1 (min 5 (jsRound q)) ≤ 5 := by
    constructor
    · exact le_max_left 1 _
    · exact max_le (by norm_num) (min_le_left 5 _)
  refine ⟨?_, hbound, ?_, ?_, ?_, ?_⟩
  · exact postReview_stores st uid lid q comment ruid now l _ hb hl rfl
      (by have := hbound.1; simpa using (by omega : max 1 (min 5 (jsRound q)) ≠ 0))
  · norm_num [clampRating, jsRound, Rat.floor]
  · norm_num [clampRating, jsRound, Rat.floor]
  · norm_num [clampRating, jsRound, Rat.floor]
  · simp [postReview, idFrom, clampRating, hb]

/-- C6 amended witness: submitting rating 2 stores 2, the clamp instances
evaluate as stated, and a non-numeric rating is rejected. -/
theorem review_rating_clamped_witness :
    ((postReview oneListingDB 9 (some 1) (some 2) none none 0).2.reviews.map (fun x => x.rating)
       = oneListingDB.reviews.map (fun x => x.rating) ++ [max 1 (min 5 (jsRound 2))]) ∧
    (1 ≤ max 1 (min 5 (jsRound 2)) ∧ max 1 (min 5 (jsRound 2)) ≤ 5) ∧
    clampRating (some 0) = some 1 ∧
    clampRating (some 6) = some 5 ∧
    clampRating (some (37/10)) = some 4 ∧
    (postReview oneListingDB 9 (some 1) none none none 0).1 = .err 400 "Bad rating" :=
  review_rating_clamped oneListingDB 9 1 2 none none 0 sampleListing (by decide) (by decide)

/-- C7: a role that does not normalize by trim and lowercase to traveler or
sender fails with the 400 bad-role error; otherwise the handler appends a new
listing with status open, is_active 1, owned by the caller, and returns the
full mapped listing. -/
theorem create_listing_role_and_defaults
    (st : DB) (uid : Int) (body : CreateBody) (now : Nat) :
    (clampRole body.role = none →
       createListing st uid body now = (.err 400 "Bad role", st)) ∧
    (∀ role, clampRole body.role = some role →
       createListing st uid body now
         = (.ok (mapListing (newListing st uid role body now)),
            { st with listings := st.listings ++ [newListing st uid role body now],
                      nextListingId := st.nextListingId + 1 }) ∧
       (newListing st uid role body now).status = "open" ∧
       (newListing st uid role body now).is_active = 1 ∧
       (newListing st uid role body now).user_id = uid) ∧
    (∀ v, clampRole (some v) = none ↔
       (jsLower (jsTrim v) ≠ "traveler" ∧ jsLower (jsTrim v) ≠ "sender")) := by
  refine ⟨?_, ?_, ?_⟩
  · intro h
    simp only [createListing, h]
  · intro role h
    simp only [createListing, h]
    exact ⟨trivial, rfl, rfl, rfl⟩
  · intro v
    unfold clampRole
    by_cases h1 : jsLower (jsTrim v) = "traveler"
    · simp [h1]
    · by_cases h2 : jsLower (jsTrim v) = "sender"
      · simp [h1, h2]
      · simp [h1, h2]

/-- C7 witness: a body whose role trims and lowercases to traveler produces
the open, active listing owned by caller 5 and returns it mapped. -/
theorem create_listing_role_and_defaults_witness :
    createListing emptyDB 5 c7body 0
      = (.ok (mapListing (newListing emptyDB 5 "traveler" c7body 0)),
         { emptyDB with listings := emptyDB.listings ++ [newListing emptyDB 5 "traveler" c7body 0],
                        nextListingId := emptyDB.nextListingId + 1 }) ∧
    (newListing emptyDB 5 "traveler" c7body 0).status = "open" ∧
    (newListing emptyDB 5 "traveler" c7body 0).is_active = 1 ∧
    (newListing emptyDB 5 "traveler" c7body 0).user_id = 5 :=
  (create_listing_role_and_defaults emptyDB 5 c7body 0).2.1 "traveler" (by decide)

/-- C8: the search output is sorted by the ORDER BY key, ascending CASE rank
with ties broken by shorter iata and then shorter city, and an airport whose
iata equals the lowered query ranks strictly above any airport whose iata
does not, such as one whose city merely contains the query. -/
theorem airport_search_ranking
    (table : List Airport) (q : String) (lim : Int) (a b : Airport)
    (ha : jsLower a.iata = jsLower (jsTrim q))
    (hb : jsLower b.iata ≠ jsLower (jsTrim q)) :
    List.Pairwise (airportOrder (jsLower (jsTrim q))) (searchRows table q lim) ∧
    airportRank (jsLower (jsTrim q)) a = 0 ∧
    1 ≤ airportRank (jsLower (jsTrim q)) b ∧
    airportOrder (jsLower (jsTrim q)) a b ∧
    ¬ airportOrder (jsLower (jsTrim q)) b a := by
  have h0 : airportRank (jsLower (jsTrim q)) a = 0 := by
    unfold airportRank
    rw [if_pos ha]
  have h1 : 1 ≤ airportRank (jsLower (jsTrim q)) b := by
    unfold airportRank
    rw [if_neg hb]
    split_ifs <;> norm_num
  refine ⟨?_, h0, h1, ?_, ?_⟩
  · unfold searchRows
    by_cases hshort : (jsTrim q).length < 2
    · simp [hshort]
    · simp only [if_neg hshort]
      exact List.Pairwise.sublist (List.take_sublist _ _)
        (List.sorted_insertionSort (airportOrder (jsLower (jsTrim q))) _)
  · simp only [airportOrder, keyLex, airportKey]
    omega
  · simp only [airportOrder, keyLex, airportKey]
    omega

/-- C8 witness: searching JFK over a two-row table, the exact-iata airport
outranks the airport whose city contains jfk, and the output is sorted. -/
theorem airport_search_ranking_witness :
    List.Pairwise (airportOrder (jsLower (jsTrim "JFK")))
      (searchRows [cityAirport, jfkAirport] "JFK" 20) ∧
    airportRank (jsLower (jsTrim "JFK")) jfkAirport = 0 ∧
    1 ≤ airportRank (jsLower (jsTrim "JFK")) cityAirport ∧
    airportOrder (jsLower (jsTrim "JFK")) jfkAirport cityAirport ∧
    ¬ airportOrder (jsLower (jsTrim "JFK")) cityAirport jfkAirport :=
  airport_search_ranking [cityAirport, jfkAirport] "JFK" 20 jfkAirport cityAirport
    (by decide) (by decide)

/-- C9: a query whose trimmed length is below 2 short-circuits to a 200 reply
with the empty row array, for every table and every limit value. -/
theorem short_query_returns_empty
    (table : List Airport) (q : String) (lim : Int)
    (h : (jsTrim q).length < 2) :
    searchAirports table q lim = .ok [] := by
  unfold searchAirports searchRows
  simp [h]

/-- C9 witness: the one-character query a on a nonempty table with limit 7
replies success with no rows. -/
theorem short_query_returns_empty_witness :
    searchAirports [jfkAirport, cityAirport] "a" 7 = .ok [] :=
  short_query_returns_empty [jfkAirport, cityAirport] "a" 7 (by decide)

/-- C10: posting a message needs only a positive listing id and non-empty
trimmed text; with no hypothesis at all on the stored listings the write
succeeds, returns the persisted row, appends it bound to that id, and leaves
the listings untouched. -/
theorem post_message_ignores_listing
    (st : DB) (uid lid : Int) (text : Option String) (now : Nat)
    (hpos : 0 < lid)
    (htext : safeTrim text ≠ "") :
    (postMessage st uid (some lid) text now).1
      = .ok { id := st.nextMessageId, listing_id := lid, sender_id := uid,
              message := safeTrim text, created_at := now } ∧
    (postMessage st uid (some lid) text now).2.messages
      = st.messages ++ [{ id := st.nextMessageId, listing_id := lid, sender_id := uid,
                          message := safeTrim text, created_at := now }] ∧
    (postMessage st uid (some lid) text now).2.listings = st.listings := by
  have hb : (lid == 0) = false := by
    have h : lid ≠ 0 := by omega
    simpa using h
  simp only [postMessage, idFrom, hb, Bool.false_eq_true, if_false, if_neg htext]
  exact ⟨trivial, trivial, trivial⟩

/-- C10 witness: a message posted to listing id 42 of an empty database, where
no listing exists at all, is persisted and returned. -/
theorem post_message_ignores_listing_witness :
    (postMessage emptyDB 9 (some 42) (some " hi ") 3).1
      = .ok { id := emptyDB.nextMessageId, listing_id := 42, sender_id := 9,
              message := safeTrim (some " hi "), created_at := 3 } ∧
    (postMessage emptyDB 9 (some 42) (some " hi ") 3).2.messages
      = emptyDB.messages ++ [{ id := emptyDB.nextMessageId, listing_id := 42, sender_id := 9,
                               message := safeTrim (some " hi "), created_at := 3 }] ∧
    (postMessage emptyDB 9 (some 42) (some " hi ") 3).2.listings = emptyDB.listings :=
  post_message_ignores_listing emptyDB 9 42 (some " hi ") 3 (by decide) (by decide)

end AnswerForU
